import Mathlib

/-!
Verification of the core of `youtube-new-video-bot` (Python), shallowly
embedded in Lean 4.

Modelling conventions, used throughout:

* Python `str`-or-`None` fields are modelled as `String`, with `""` standing
  for both `None` and the empty string.  Every use of these fields in the
  source tests them only by truthiness (`if not video.link`, `if vid`,
  `if not latest_video.video_id`, `or`-chaining), under which `None` and
  `""` coincide; equality comparisons against them are only reached when the
  value is truthy.
* Firestore documents are modelled as association lists keyed by document
  id; a field that is absent (or stored as `null` where the source reads it
  with truthiness) is `none`.
* Server-assigned timestamp fields (`discovered_at`, `subscribed_at`,
  `last_updated`, `last_subs_sync`) carry no information the source ever
  reads back, and are omitted from the document model; the write to
  `bot_state/sync_info` is recorded in a counter so it stays visible.
* The channel cache TTL (23 hours) is not modelled as wall-clock time: the
  claims are about reads issued immediately after a write, which are always
  within the TTL window, so `_is_cache_valid` reduces to its truthiness
  checks on `_cache_timestamp`/`_channels_cache` (a cached *empty* list is
  treated as invalid, exactly as `not self._channels_cache` does).
-/

/-- Models Python `str.startswith` (`list`-level structural comparison; the
source uses it only on short constant patterns). -/
def strStartsWith (s pat : String) : Bool :=
  List.isPrefixOf pat.toList s.toList

/-- The canonical watch-URL pattern from `_is_full_youtube_video`. -/
def watchUrlBase : String := "https://www.youtube.com/watch?v="

/-- Source `src/models/video.py`, dataclass `Video`.  `view_count` is always `None`
for RSS-discovered videos and is dropped. -/
structure Video where
  video_id : String
  title : String
  channel_id : String
  channel_title : String
  link : String
  thumbnail : String := ""
  published_at : String := ""
  deriving Repr, DecidableEq

/-- Source `src/models/channel.py`, dataclass `Channel`.  `last_upload_at` is an
`Optional[datetime]`, modelled as the datetime's ISO string. -/
structure Channel where
  channel_id : String
  title : String
  thumbnail : String := ""
  last_video_id : String := ""
  notify : Bool := true
  last_upload_at : Option String := none
  deriving Repr, DecidableEq

/-- Source `YouTubeBotService._is_full_youtube_video`:
`if not video.link: return False` then
`return video.link.startswith("https://www.youtube.com/watch?v=")`. -/
def isFullYoutubeVideo (v : Video) : Bool :=
  if v.link = "" then false
  else strStartsWith v.link watchUrlBase

/-- The first six components of a `time.struct_time` as delivered by
`feedparser` in `entry.published_parsed`. -/
structure PubTime where
  year : Nat
  month : Nat
  day : Nat
  hour : Nat
  minute : Nat
  second : Nat
  deriving Repr, DecidableEq

/-- Gregorian month lengths, as enforced by Python's `datetime` constructor. -/
def daysInMonth (y m : Nat) : Nat :=
  if m = 2 then
    if (y % 4 = 0 && y % 100 ≠ 0) || y % 400 = 0 then 29 else 28
  else if m = 4 || m = 6 || m = 9 || m = 11 then 30
  else 31

def pad2 (n : Nat) : String :=
  if n < 10 then ("0") ++ toString n else toString n

def pad4 (n : Nat) : String :=
  if n < 10 then ("000") ++ toString n
  else if n < 100 then ("00") ++ toString n
  else if n < 1000 then ("0") ++ toString n
  else toString n

/-- Models `datetime(*published[:6], tzinfo=timezone.utc).isoformat()`:
the constructor raises `ValueError` on out-of-range components (modelled as
`none`), otherwise the ISO-8601 rendering with a `+00:00` offset. -/
def datetimeUtcIso (t : PubTime) : Option String :=
  if 1 ≤ t.year && t.year ≤ 9999 && 1 ≤ t.month && t.month ≤ 12 &&
     1 ≤ t.day && t.day ≤ daysInMonth t.year t.month &&
     t.hour ≤ 23 && t.minute ≤ 59 && t.second ≤ 59 then
    some (pad4 t.year ++ "-" ++ pad2 t.month ++ "-" ++ pad2 t.day ++ "T" ++
          pad2 t.hour ++ ":" ++ pad2 t.minute ++ ":" ++ pad2 t.second ++ "+00:00")
  else none

/-- A feed entry as consumed by `Video.from_rss_entry`.  String fields follow
the `""`-for-`None` convention; `title` keeps `Option` because its absent
case takes the `"Untitled"` default while a present-but-empty title does not.
`media_thumbnail_url` / `media_content_url` stand for
`entry.get("media_thumbnail", [{}])[0].get("url")` (resp. `media_content`),
already reduced to the first reference's url. -/
structure RssEntry where
  yt_videoid : String := ""
  entry_id : String := ""
  title : Option String := none
  link : String := ""
  media_thumbnail_url : String := ""
  media_content_url : String := ""
  published_parsed : Option PubTime := none
  deriving Repr, DecidableEq

/-- Python truthy `or` on the `""`-for-`None` convention. -/
def pyOr (a b : String) : String := if a = "" then b else a

/-- Source `Video.from_rss_entry`.  Note the source line
`link = entry.get("link") or f"https://www.youtube.com/watch?v={vid}" if vid else None`
parses as `(entry.get("link") or f"...{vid}") if vid else None`: when `vid`
is falsy the link is `None` regardless of the entry's own link. -/
def fromRssEntry (e : RssEntry) (channel_id channel_title : String) : Video :=
  let vid := pyOr e.yt_videoid e.entry_id
  let title := e.title.getD ("Untitled")
  let link := if vid ≠ "" then pyOr e.link (watchUrlBase ++ vid) else ""
  let thumbnail := pyOr e.media_thumbnail_url e.media_content_url
  let published_at :=
    match e.published_parsed with
    | some t => (datetimeUtcIso t).getD ("")
    | none => ""
  { video_id := vid, title := title, channel_id := channel_id,
    channel_title := channel_title, link := link, thumbnail := thumbnail,
    published_at := published_at }

/-- Outcome of `feedparser.parse` as observed by `RSSService.get_latest_video`:
either the surrounding `try` catches an exception (fetch error, parse error,
or an exception out of `Video.from_rss_entry` such as the `IndexError` on an
empty media list), or a parsed feed with its list of entries. -/
inductive FeedOutcome where
  | fetchOrParseError
  | entries (es : List RssEntry)
  deriving Repr, DecidableEq

/-- Source `RSSService.get_latest_video`: exceptions and empty feeds give `None`
(the function is total by construction), otherwise the first entry is
extracted. -/
def getLatestVideo (channel : Channel) (feed : FeedOutcome) : Option Video :=
  match feed with
  | .fetchOrParseError => none
  | .entries [] => none
  | .entries (e :: _) => some (fromRssEntry e channel.channel_id channel.title)

/-- A document of the `subscriptions` collection, restricted to the fields
the source ever reads back.  `none` = field absent. -/
structure SubDoc where
  title : Option String := none
  thumbnail : Option String := none
  last_video_id : Option String := none
  notify : Option Bool := none
  last_upload_at : Option String := none
  deriving Repr, DecidableEq

/-- In-process state of `FirebaseService` together with the backing
Firestore collections.  `channelsCache` models `_channels_cache`
(`none` = invalidated); `syncWrites` counts writes to
`bot_state/sync_info`. -/
structure FirebaseState where
  subscriptions : List (String × SubDoc) := []
  videos : List (String × Video) := []
  channelsCache : Option (List Channel) := none
  syncWrites : Nat := 0
  deriving Repr, DecidableEq

/-- Firestore document read by id. -/
def findDoc (subs : List (String × SubDoc)) (cid : String) : Option SubDoc :=
  match subs with
  | [] => none
  | (k, d) :: rest => if k = cid then some d else findDoc rest cid

/-- Firestore document write by id (creates the document when absent). -/
def setDoc (subs : List (String × SubDoc)) (cid : String) (d : SubDoc) :
    List (String × SubDoc) :=
  match subs with
  | [] => [(cid, d)]
  | (k, d0) :: rest =>
    if k = cid then (cid, d) :: rest else (k, d0) :: setDoc rest cid d

/-- Source `Channel.to_dict` restricted to the modelled fields.  `set(..., merge=True)`
with this dictionary supplies every modelled field (a Python `None` value is
still written, as `null`), so the merge amounts to overwriting the whole
modelled document. -/
def Channel.toDoc (ch : Channel) : SubDoc :=
  { title := some ch.title, thumbnail := some ch.thumbnail,
    last_video_id := some ch.last_video_id, notify := some ch.notify,
    last_upload_at := ch.last_upload_at }

/-- Source `FirebaseService._is_cache_valid`, within the TTL window:
`not self._cache_timestamp or not self._channels_cache` is true for an
invalidated cache and for a cached empty list. -/
def cacheValid (fb : FirebaseState) : Bool :=
  match fb.channelsCache with
  | none => false
  | some l => !l.isEmpty

/-- Source `FirebaseService._invalidate_cache`. -/
def invalidateCache (fb : FirebaseState) : FirebaseState :=
  { fb with channelsCache := none }

/-- Models `datetime.fromisoformat` followed by re-serialisation: accepts a
string shaped like an ISO date(-time) and returns it unchanged, rejects the
rest.  No claim depends on the exact acceptance boundary, only on the
success/failure split being possible. -/
def fromIsoOpt (s : String) : Option String :=
  let cs := s.toList
  if s.length ≥ 10 && (cs.take 4).all Char.isDigit && cs.get? 4 = some ('-') &&
     ((cs.drop 5).take 2).all Char.isDigit && cs.get? 7 = some ('-') &&
     ((cs.drop 8).take 2).all Char.isDigit then
    some s
  else none

/-- The `Channel(...)` construction shared by `get_all_channels` and
`get_channel`: `data.get(field, default)` reads with defaults
(`notify` → `True`, `last_video_id` → `''`, `title` → the document id), and
`last_upload_at` is parsed via `datetime.fromisoformat` with any parse
failure mapped to `None`. -/
def docToChannel (cid : String) (d : SubDoc) : Channel :=
  { channel_id := cid
    title := d.title.getD cid
    thumbnail := d.thumbnail.getD ("")
    last_video_id := d.last_video_id.getD ("")
    notify := d.notify.getD true
    last_upload_at :=
      match d.last_upload_at with
      | none => none
      | some s => if s = "" then none else fromIsoOpt s }

/-- Source `FirebaseService.save_subscription`: merge-write of `channel.to_dict()`
(plus a server timestamp, not modelled), then `_invalidate_cache`. -/
def saveSubscription (fb : FirebaseState) (ch : Channel) : FirebaseState × Bool :=
  (invalidateCache
    { fb with subscriptions := setDoc fb.subscriptions ch.channel_id ch.toDoc },
   true)

/-- Source `FirebaseService.save_video`.  The `try` block evaluates
`isinstance(video.channel_ref, str)`, but the `Video` dataclass declares no
`channel_ref` field, so every call raises `AttributeError` before reaching
the Firestore write; the `except` handler returns `False`.  No state
changes. -/
def saveVideo (fb : FirebaseState) (_v : Video) : FirebaseState × Bool :=
  (fb, false)

/-- Source `FirebaseService.update_channel_last_video`: a Firestore `update` on the
document (raises and returns `False` when the document is absent).  The
cache is NOT invalidated by this operation. -/
def updateChannelLastVideo (fb : FirebaseState) (cid vid : String) :
    FirebaseState × Bool :=
  match findDoc fb.subscriptions cid with
  | none => (fb, false)
  | some d =>
    let subs := setDoc fb.subscriptions cid { d with last_video_id := some vid }
    ({ fb with subscriptions := subs }, true)

/-- Source `FirebaseService.update_channel_notify_preference`: field update, then
`_invalidate_cache` (skipped when the update raises on an absent document). -/
def updateChannelNotifyPref (fb : FirebaseState) (cid : String) (notify : Bool) :
    FirebaseState × Bool :=
  match findDoc fb.subscriptions cid with
  | none => (fb, false)
  | some d =>
    let subs := setDoc fb.subscriptions cid { d with notify := some notify }
    (invalidateCache { fb with subscriptions := subs }, true)

/-- Source `FirebaseService.update_last_sync_time`: merge-write of a server
timestamp into `bot_state/sync_info`.  Touches no subscription document and
does not invalidate the cache. -/
def updateLastSyncTime (fb : FirebaseState) : FirebaseState × Bool :=
  ({ fb with syncWrites := fb.syncWrites + 1 }, true)

/-- Source `FirebaseService.get_all_channels`: serve from the cache when valid,
otherwise read the collection, convert every document, and fill the cache. -/
def getAllChannels (fb : FirebaseState) : List Channel × FirebaseState :=
  if cacheValid fb then
    (fb.channelsCache.getD [], fb)
  else
    let channels := fb.subscriptions.map (fun p => docToChannel p.1 p.2)
    (channels, { fb with channelsCache := some channels })

/-- Source `FirebaseService.get_channel`: from the cache when valid (a miss raises
`KeyError`, modelled as `none`), otherwise a single-document read (absent
document also raises).  Does not fill the cache. -/
def getChannel (fb : FirebaseState) (cid : String) : Option Channel :=
  if cacheValid fb then
    (fb.channelsCache.getD []).find? (fun c => c.channel_id = cid)
  else
    match findDoc fb.subscriptions cid with
    | none => none
    | some d => some (docToChannel cid d)

/-- Source `FirebaseService.channel_exists`. -/
def channelExists (fb : FirebaseState) (cid : String) : Bool :=
  if cacheValid fb then
    (fb.channelsCache.getD []).any (fun c => c.channel_id = cid)
  else
    (findDoc fb.subscriptions cid).isSome

/-- State of the transient store for the current UTC day (`RedisService`):
the `videos:{date}` list (`lpush` order, most recent first) and the
`filtered_count:{date}` counter.  Day keys and the 7-day expiry are not
modelled: every claim concerns operations within a single current day.  The
`stored_at` field added on write is dropped again on read
(`data.pop('stored_at', ...)`) and is omitted. -/
structure RedisState where
  videos : List Video := []
  filtered : Nat := 0
  deriving Repr, DecidableEq

/-- Source `RedisService.store_video` (`lpush` prepends). -/
def storeVideo (r : RedisState) (v : Video) : RedisState :=
  { r with videos := v :: r.videos }

/-- Source `RedisService.get_stored_videos` (`lrange key 0 -1`). -/
def getStoredVideos (r : RedisState) : List Video := r.videos

/-- Source `RedisService.increment_filtered_count`. -/
def incrementFilteredCount (r : RedisState) (count : Nat) : RedisState :=
  { r with filtered := r.filtered + count }

/-- Source `RedisService.get_filtered_count`. -/
def getFilteredCount (r : RedisState) : Nat := r.filtered

/-- Source `RedisService.clear_stored_videos`: deletes both the video list and the
filtered counter, returning the number of removed video entries. -/
def clearStoredVideos (r : RedisState) : RedisState × Nat :=
  ({ videos := [], filtered := 0 }, r.videos.length)

/-- The external state a `YouTubeBotService` instance acts on. -/
structure BotState where
  fb : FirebaseState
  redis : RedisState
  deriving Repr, DecidableEq

/-- Models `published_at.replace('Z', '+00:00')` (single-character pattern, so a
character-wise rewrite is exact). -/
def replaceZ (s : String) : String :=
  String.mk (s.toList.foldr
    (fun c acc =>
      if c = 'Z' then '+' :: '0' :: '0' :: ':' :: '0' :: '0' :: acc
      else c :: acc)
    [])

/-- Source `YouTubeBotService._process_new_video`: returns the new Firebase state
and whether the video was saved (`False` = filtered out as a short).  On a
full-form video it calls `save_video` (which always fails, see `saveVideo`),
advances the cursor via `update_channel_last_video`, and, when
`published_at` parses, merge-writes the whole channel record with the new
`last_upload_at` via `save_subscription`. -/
def processNewVideo (fb : FirebaseState) (channel : Channel) (v : Video) :
    FirebaseState × Bool :=
  if !isFullYoutubeVideo v then (fb, false)
  else
    let fb1 := (saveVideo fb v).1
    let fb2 := (updateChannelLastVideo fb1 channel.channel_id v.video_id).1
    let fb3 :=
      if v.published_at = "" then fb2
      else
        match fromIsoOpt (replaceZ v.published_at) with
        | some t =>
          (saveSubscription fb2
            { channel with last_video_id := v.video_id,
                           last_upload_at := some t }).1
        | none => fb2
    (fb3, true)

/-- The per-channel body of `_poll_videos_once`: given the channel (as read
from the registry) and the result of `RSSService.get_latest_video`, returns
the new Firebase state, the videos appended to `new_videos` for this
channel, and the amount added to `firestore_filtered_count`. -/
def pollChannelStep (initMode : Bool) (fb : FirebaseState) (channel : Channel)
    (latest : Option Video) : FirebaseState × List Video × Nat :=
  match latest with
  | none => (fb, [], 0)
  | some v =>
    if v.video_id = "" then (fb, [], 0)
    else if channel.last_video_id = "" then
      let r := processNewVideo fb channel v
      if r.2 && !initMode then (r.1, [v], 0)
      else if !r.2 then (r.1, [], 1)
      else (r.1, [], 0)
    else if v.video_id ≠ channel.last_video_id then
      let r := processNewVideo fb channel v
      if r.2 then (r.1, [v], 0) else (r.1, [], 1)
    else (fb, [], 0)

/-- Source `YouTubeBotService._poll_videos_once`.  `feed` abstracts the per-cycle
RSS responses (one `get_latest_video` result per channel).  Channels are
read through `get_all_channels`, restricted to `notify=true`, processed
sequentially; afterwards buffered videos are `lpush`ed to Redis one by one
and, when nonzero, the filtered count is incremented once. -/
def pollVideosOnce (initMode : Bool) (feed : Channel → Option Video)
    (st : BotState) : BotState :=
  let read := getAllChannels st.fb
  let toPoll := read.1.filter (fun c => c.notify)
  let r := toPoll.foldl
    (fun (acc : FirebaseState × List Video × Nat) ch =>
      let s := pollChannelStep initMode acc.1 ch (feed ch)
      (s.1, acc.2.1 ++ s.2.1, acc.2.2 + s.2.2))
    (read.2, [], 0)
  let redis1 := r.2.1.foldl storeVideo st.redis
  let redis2 := if r.2.2 > 0 then incrementFilteredCount redis1 r.2.2 else redis1
  { fb := r.1, redis := redis2 }

/-- The per-subscription body of `_sync_subscriptions`: `sub` is one
`(channel_id, title, thumbnail)` tuple from the authenticated API.  Returns
the new Firebase state and `is_new`.  An unknown channel is created with the
`Channel` defaults (`notify=True`, empty cursor); a known one re-reads the
existing record and carries its cursor, notify flag and upload time forward
while taking title and thumbnail from the fetched data.  The `none` branch
models `get_channel` raising (unreachable when `channel_exists` just
returned `True` on the same state): the exception aborts the sync. -/
def syncSubscriptionStep (fb : FirebaseState) (sub : String × String × String) :
    FirebaseState × Bool :=
  let cid := sub.1
  let title := sub.2.1
  let thumb := sub.2.2
  if !channelExists fb cid then
    let ch : Channel :=
      { channel_id := cid, title := pyOr title cid, thumbnail := thumb }
    ((saveSubscription fb ch).1, true)
  else
    match getChannel fb cid with
    | some existing =>
      let ch : Channel :=
        { channel_id := cid, title := pyOr title cid, thumbnail := thumb,
          last_video_id := existing.last_video_id,
          notify := existing.notify,
          last_upload_at := existing.last_upload_at }
      ((saveSubscription fb ch).1, false)
    | none => (fb, false)

/-- Source `YouTubeBotService._send_daily_summary`, returning the new state and the
number of summary dispatches that completed.  The body reads the stored
videos and the filtered count, returns early when both are empty, and then
evaluates `self._telegram_service.send_video_summary_notification(...)`.
`TelegramService` (telegram_service.py) defines no method of that name, so
the attribute lookup raises `AttributeError`; the surrounding `except`
catches it and returns, and the `clear_stored_videos` call is never
reached.  Hence: no dispatch ever completes and the buffer is never
cleared. -/
def sendDailySummary (st : BotState) : BotState × Nat :=
  let stored := getStoredVideos st.redis
  let filteredCount := getFilteredCount st.redis
  if stored.isEmpty && filteredCount = 0 then (st, 0)
  else (st, 0)

/-- The `last_video_id` field of the stored subscription document for `cid`
(`none` = no document). -/
def cursorOf (fb : FirebaseState) (cid : String) : Option (Option String) :=
  (findDoc fb.subscriptions cid).map SubDoc.last_video_id

theorem findDoc_setDoc (l : List (String × SubDoc)) (cid x : String) (d : SubDoc) :
    findDoc (setDoc l cid d) x = if cid = x then some d else findDoc l x := by
  induction l with
  | nil => simp [setDoc, findDoc]
  | cons p rest ih =>
    obtain ⟨k, d0⟩ := p
    by_cases hk : k = cid
    · subst hk
      by_cases hx : k = x <;> simp [setDoc, findDoc, hx]
    · by_cases hx : k = x
      · subst hx
        have : ¬ cid = k := fun h => hk h.symm
        simp [setDoc, findDoc, hk, this]
      · simp [setDoc, findDoc, hk, hx, ih]

theorem cursorOf_saveSubscription (fb : FirebaseState) (ch : Channel) (x : String) :
    cursorOf (saveSubscription fb ch).1 x =
      if ch.channel_id = x then some (some ch.last_video_id) else cursorOf fb x := by
  simp only [cursorOf, saveSubscription, invalidateCache, findDoc_setDoc]
  by_cases h : ch.channel_id = x <;> simp [h, Channel.toDoc]

theorem cursorOf_updateChannelLastVideo (fb : FirebaseState) (cid vid x : String) :
    cursorOf (updateChannelLastVideo fb cid vid).1 x =
      if cid = x ∧ (findDoc fb.subscriptions cid).isSome
      then some (some vid) else cursorOf fb x := by
  unfold updateChannelLastVideo
  cases hfd : findDoc fb.subscriptions cid with
  | none => simp [cursorOf, hfd]
  | some d =>
    simp only [cursorOf, findDoc_setDoc, hfd]
    by_cases h : cid = x <;> simp [h]

/-- Whether `_process_new_video` reaches its `save_subscription` call: the
video carries a published timestamp that `fromisoformat` accepts. -/
def pubParses (v : Video) : Bool :=
  !(v.published_at = "") && (fromIsoOpt (replaceZ v.published_at)).isSome

/-- The cursor after `_process_new_video`: untouched unless the video is
full-form and addresses the processed channel, whose cursor becomes the
video's id — through the field update when the document exists, or through
the merge-write when the published timestamp parses. -/
theorem cursorOf_processNewVideo (fb : FirebaseState) (ch : Channel) (v : Video)
    (x : String) :
    cursorOf (processNewVideo fb ch v).1 x =
      if isFullYoutubeVideo v = true ∧ ch.channel_id = x ∧
         ((findDoc fb.subscriptions ch.channel_id).isSome = true ∨ pubParses v = true)
      then some (some v.video_id) else cursorOf fb x := by
  cases hfull : isFullYoutubeVideo v with
  | false => simp [processNewVideo, hfull]
  | true =>
    simp only [processNewVideo, hfull, Bool.not_true, Bool.false_eq_true,
      if_false, true_and, saveVideo]
    by_cases hpub : v.published_at = ""
    · have hpp : pubParses v = false := by simp [pubParses, hpub]
      by_cases hcid : ch.channel_id = x <;>
        by_cases hdoc : (findDoc fb.subscriptions ch.channel_id).isSome <;>
          simp_all [cursorOf_updateChannelLastVideo]
    · simp only [if_neg hpub]
      cases hiso : fromIsoOpt (replaceZ v.published_at) with
      | some t =>
        have hpp : pubParses v = true := by simp [pubParses, hpub, hiso]
        by_cases hcid : ch.channel_id = x <;>
          simp_all [cursorOf_saveSubscription, cursorOf_updateChannelLastVideo]
      | none =>
        have hpp : pubParses v = false := by simp [pubParses, hpub, hiso]
        by_cases hcid : ch.channel_id = x <;>
          by_cases hdoc : (findDoc fb.subscriptions ch.channel_id).isSome <;>
            simp_all [cursorOf_updateChannelLastVideo]

/-- A video that is not full-form is rejected by `_process_new_video`
without any state change. -/
theorem processNewVideo_not_full (fb : FirebaseState) (ch : Channel) (v : Video)
    (h : isFullYoutubeVideo v = false) :
    processNewVideo fb ch v = (fb, false) := by
  simp [processNewVideo, h]

/-- The Boolean returned by `_process_new_video` is exactly the classifier
verdict. -/
theorem snd_processNewVideo (fb : FirebaseState) (ch : Channel) (v : Video) :
    (processNewVideo fb ch v).2 = isFullYoutubeVideo v := by
  cases hfull : isFullYoutubeVideo v <;> simp [processNewVideo, hfull]

/-- The Firebase state coming out of the per-channel poll body: the channel
is handed to `_process_new_video` exactly when the video has an id and is
either a bootstrap or a cursor mismatch. -/
theorem fst_pollChannelStep (initMode : Bool) (fb : FirebaseState)
    (ch : Channel) (v : Video) :
    (pollChannelStep initMode fb ch (some v)).1 =
      if v.video_id ≠ "" ∧ (ch.last_video_id = "" ∨ v.video_id ≠ ch.last_video_id)
      then (processNewVideo fb ch v).1 else fb := by
  by_cases hid : v.video_id = "" <;>
    by_cases hboot : ch.last_video_id = "" <;>
      by_cases hnew : v.video_id = ch.last_video_id <;>
        simp only [pollChannelStep, hid, hboot, hnew] <;>
          simp_all <;> split <;> simp_all <;> split <;> simp_all

theorem findDoc_mem (l : List (String × SubDoc)) (cid : String) (d : SubDoc)
    (h : findDoc l cid = some d) : (cid, d) ∈ l := by
  induction l with
  | nil => simp [findDoc] at h
  | cons p rest ih =>
    obtain ⟨k, d0⟩ := p
    by_cases hk : k = cid
    · subst hk
      have h' : d0 = d := by simpa [findDoc] using h
      subst h'
      exact List.mem_cons_self _ _
    · simp only [findDoc, if_neg hk] at h
      exact List.mem_cons_of_mem _ (ih h)

/-- Source `_process_new_video` never writes the `videos` collection
(`save_video` fails before its write, see `saveVideo`). -/
theorem videos_processNewVideo (fb : FirebaseState) (ch : Channel) (v : Video) :
    (processNewVideo fb ch v).1.videos = fb.videos := by
  cases hfull : isFullYoutubeVideo v with
  | false => simp [processNewVideo, hfull]
  | true =>
    simp only [processNewVideo, hfull, Bool.not_true, Bool.false_eq_true,
      if_false, saveVideo]
    by_cases hpub : v.published_at = ""
    · simp [hpub, updateChannelLastVideo]
      cases findDoc fb.subscriptions ch.channel_id <;> simp
    · simp only [if_neg hpub]
      cases hiso : fromIsoOpt (replaceZ v.published_at) <;>
        simp [saveSubscription, invalidateCache, updateChannelLastVideo] <;>
          cases findDoc fb.subscriptions ch.channel_id <;> simp

/-! Concrete fixtures used by witnesses and counterexamples. -/

def ucTwo : String := "UC2"

def uc1 : String := "UC1"

/-- Channel `UC2` with cursor `v1` (the spec's second end-to-end scenario). -/
def chUC2 : Channel :=
  { channel_id := "UC2", title := "Channel Two", last_video_id := "v1" }

/-- A short: `video_id=v2`, link `https://www.youtube.com/shorts/v2`. -/
def vShort2 : Video :=
  { video_id := "v2", title := "Some Short", channel_id := "UC2",
    channel_title := "Channel Two", link := "https://www.youtube.com/shorts/v2" }

/-- A full-form video `v2` on channel `UC2`. -/
def vFull2 : Video :=
  { video_id := "v2", title := "Full Video", channel_id := "UC2",
    channel_title := "Channel Two",
    link := "https://www.youtube.com/watch?v=v2" }

/-- The stored subscription document behind `chUC2`. -/
def docUC2 : SubDoc :=
  { title := some ("Channel Two"), last_video_id := some ("v1"),
    notify := some true }

/-- A Firestore state holding only `UC2`, cache cold. -/
def fbUC2 : FirebaseState := { subscriptions := [(ucTwo, docUC2)] }

/-- C4: the full-form classifier is a pure total function of the video's
link, true iff the link is non-empty and begins with the exact
case-sensitive pattern `https://www.youtube.com/watch?v=`; it is false for
`/shorts/` paths, `youtu.be` and `m.youtube.com` hosts and empty/None
links, and true for the bare pattern with an empty id. -/
def vShortsLink : Video :=
  { video_id := "v2", title := "t", channel_id := "c",
    channel_title := "ct", link := "https://www.youtube.com/shorts/v2" }

def vYoutuBeLink : Video :=
  { video_id := "v2", title := "t", channel_id := "c",
    channel_title := "ct", link := "https://youtu.be/v2" }

def vMobileLink : Video :=
  { video_id := "v2", title := "t", channel_id := "c",
    channel_title := "ct", link := "https://m.youtube.com/watch?v=v2" }

def vNoLink : Video :=
  { video_id := "v2", title := "t", channel_id := "c",
    channel_title := "ct", link := "" }

def vBareWatchLink : Video :=
  { video_id := "", title := "t", channel_id := "c",
    channel_title := "ct", link := "https://www.youtube.com/watch?v=" }

theorem c4_classifier_iff_watch_link :
    (∀ v : Video, isFullYoutubeVideo v = true ↔
        v.link ≠ "" ∧ strStartsWith v.link watchUrlBase = true) ∧
    isFullYoutubeVideo vShortsLink = false ∧
    isFullYoutubeVideo vYoutuBeLink = false ∧
    isFullYoutubeVideo vMobileLink = false ∧
    isFullYoutubeVideo vNoLink = false ∧
    isFullYoutubeVideo vBareWatchLink = true := by
  refine ⟨?_, by decide, by decide, by decide, by decide, by decide⟩
  intro v
  by_cases h : v.link = "" <;> simp [isFullYoutubeVideo, h]

/-- C2: when the polled video's id equals the channel's stored cursor, the
poll step short-circuits with no side effects at all — no persistence
attempt, no cursor write, no buffered video, no filtered-count increment. -/
theorem c2_poll_idempotent_on_cursor_match (initMode : Bool)
    (fb : FirebaseState) (ch : Channel) (v : Video)
    (h : v.video_id = ch.last_video_id) :
    pollChannelStep initMode fb ch (some v) = (fb, [], 0) := by
  by_cases hempty : v.video_id = ""
  · simp [pollChannelStep, hempty]
  · have hcur : ¬ ch.last_video_id = "" := fun hc => hempty (h.trans hc)
    simp [pollChannelStep, hempty, hcur, h]

/-- C2 witness: re-feeding `v1` to channel `UC2` whose cursor is already
`v1` changes nothing. -/
def vFull1 : Video :=
  { video_id := "v1", title := "Full Video", channel_id := "UC2",
    channel_title := "Channel Two",
    link := "https://www.youtube.com/watch?v=v1" }

theorem c2_witness :
    pollChannelStep false fbUC2 chUC2 (some vFull1) = (fbUC2, [], 0) :=
  c2_poll_idempotent_on_cursor_match false fbUC2 chUC2 vFull1 (by decide)

/-- C7: the feed reader is total with respect to feed faults — a caught
fetch/parse exception or an empty feed yields `none` (no video), never an
exception, so one channel's bad feed cannot abort a polling cycle. -/
theorem c7_feed_reader_fails_soft (ch : Channel) (feed : FeedOutcome)
    (h : feed = FeedOutcome.fetchOrParseError ∨ feed = FeedOutcome.entries []) :
    getLatestVideo ch feed = none := by
  rcases h with h | h <;> subst h <;> rfl

/-- C7 witness: both fault shapes on a concrete channel. -/
theorem c7_witness :
    getLatestVideo chUC2 FeedOutcome.fetchOrParseError = none ∧
    getLatestVideo chUC2 (FeedOutcome.entries []) = none :=
  ⟨c7_feed_reader_fails_soft chUC2 _ (Or.inl rfl),
   c7_feed_reader_fails_soft chUC2 _ (Or.inr rfl)⟩

/-- Feed fixture: channel `UC2` answers with the short `v2`. -/
def c1feed : Channel → Option Video :=
  fun c => if c.channel_id = ucTwo then some vShort2 else none

/-- C1: a polled video with an id that is new for the channel but whose link
is not full-form leaves the Firebase state untouched (cursor not advanced,
nothing persisted), buffers nothing, and adds exactly 1 to the filtered
count; the cursor is only ever overwritten with the id of a video the
classifier accepted; and the spec's end-to-end scenario (channel `UC2`,
cursor `v1`, short `v2`) ends with an unchanged store, an empty buffer
list and filtered count 1. -/
theorem c1_short_filtered_without_side_effects :
    (∀ (initMode : Bool) (fb : FirebaseState) (ch : Channel) (v : Video),
        v.video_id ≠ "" → v.video_id ≠ ch.last_video_id →
        isFullYoutubeVideo v = false →
        pollChannelStep initMode fb ch (some v) = (fb, [], 1)) ∧
    (∀ (initMode : Bool) (fb : FirebaseState) (ch : Channel)
        (latest : Option Video) (x : String),
        cursorOf (pollChannelStep initMode fb ch latest).1 x ≠ cursorOf fb x →
        ∃ w, latest = some w ∧ isFullYoutubeVideo w = true ∧
          cursorOf (pollChannelStep initMode fb ch latest).1 x =
            some (some w.video_id)) ∧
    ((pollVideosOnce false c1feed { fb := fbUC2, redis := {} }).redis =
        { videos := [], filtered := 1 } ∧
      (pollVideosOnce false c1feed { fb := fbUC2, redis := {} }).fb.subscriptions =
        fbUC2.subscriptions) := by
  refine ⟨?_, ?_, by decide, by decide⟩
  · intro initMode fb ch v hid hnew hfull
    have hp := processNewVideo_not_full fb ch v hfull
    by_cases hboot : ch.last_video_id = ""
    · simp [pollChannelStep, hid, hboot, hp]
    · simp [pollChannelStep, hid, hboot, hnew, hp]
  · intro initMode fb ch latest x hx
    cases latest with
    | none => simp [pollChannelStep] at hx
    | some v =>
      rw [fst_pollChannelStep] at hx ⊢
      by_cases hcond : v.video_id ≠ "" ∧
          (ch.last_video_id = "" ∨ v.video_id ≠ ch.last_video_id)
      · rw [if_pos hcond] at hx ⊢
        rw [cursorOf_processNewVideo] at hx ⊢
        by_cases hc : isFullYoutubeVideo v = true ∧ ch.channel_id = x ∧
            ((findDoc fb.subscriptions ch.channel_id).isSome = true ∨
              pubParses v = true)
        · exact ⟨v, rfl, hc.1, by rw [if_pos hc]⟩
        · rw [if_neg hc] at hx
          exact absurd rfl hx
      · rw [if_neg hcond] at hx
        exact absurd rfl hx

/-- C1 witness: the short `v2` at channel `UC2` (cursor `v1`) exercises the
filtered branch, and the full video `v2` exercises the cursor-overwrite
characterisation. -/
theorem c1_witness :
    pollChannelStep false fbUC2 chUC2 (some vShort2) = (fbUC2, [], 1) ∧
    (∃ w, (some vFull2 = some w) ∧ isFullYoutubeVideo w = true ∧
      cursorOf (pollChannelStep false fbUC2 chUC2 (some vFull2)).1 ucTwo =
        some (some w.video_id)) := by
  constructor
  · exact c1_short_filtered_without_side_effects.1 false fbUC2 chUC2 vShort2
      (by decide) (by decide) (by decide)
  · exact c1_short_filtered_without_side_effects.2.1 false fbUC2 chUC2
      (some vFull2) ucTwo (by decide)

/-- Bootstrap channel fixture (empty cursor). -/
def chBoot : Channel := { channel_id := "UCb", title := "Boot Channel" }

/-- Full-form video fixture for the bootstrap channel. -/
def vBoot : Video :=
  { video_id := "v1", title := "First", channel_id := "UCb",
    channel_title := "Boot Channel",
    link := "https://www.youtube.com/watch?v=v1" }

/-- Store for the bootstrap channel: document present, empty cursor field. -/
def fbBoot : FirebaseState :=
  { subscriptions := [("UCb", { title := some ("Boot Channel"),
                                notify := some true })] }

/-- C3 (code bug): on a bootstrap (empty cursor) full-form video the poll
step does advance the cursor to the video's id and gates the buffer on
bulk-initialization mode exactly as claimed — but the `videos` collection is
left unchanged in both modes: `save_video` always fails before its write
because the `Video` dataclass has no `channel_ref` attribute (see
`saveVideo`), so the video is never persisted. -/
theorem c3_bootstrap_gating_but_video_never_persisted
    (fb : FirebaseState) (ch : Channel) (v : Video)
    (hboot : ch.last_video_id = "") (hid : v.video_id ≠ "")
    (hfull : isFullYoutubeVideo v = true)
    (hdoc : (findDoc fb.subscriptions ch.channel_id).isSome = true) :
    pollChannelStep true fb ch (some v) = ((processNewVideo fb ch v).1, [], 0) ∧
    pollChannelStep false fb ch (some v) = ((processNewVideo fb ch v).1, [v], 0) ∧
    cursorOf (processNewVideo fb ch v).1 ch.channel_id = some (some v.video_id) ∧
    (processNewVideo fb ch v).1.videos = fb.videos := by
  have hsnd := snd_processNewVideo fb ch v
  refine ⟨?_, ?_, ?_, videos_processNewVideo fb ch v⟩
  · simp [pollChannelStep, hid, hboot, hsnd, hfull]
  · simp [pollChannelStep, hid, hboot, hsnd, hfull]
  · rw [cursorOf_processNewVideo]
    rw [if_pos ⟨hfull, rfl, Or.inl hdoc⟩]

/-- C3 witness: the failing input — bootstrap channel `UCb`, full video
`v1`.  The cursor advances, the buffer is gated by init mode, and the
`videos` collection stays empty. -/
theorem c3_witness :
    pollChannelStep true fbBoot chBoot (some vBoot) =
      ((processNewVideo fbBoot chBoot vBoot).1, [], 0) ∧
    pollChannelStep false fbBoot chBoot (some vBoot) =
      ((processNewVideo fbBoot chBoot vBoot).1, [vBoot], 0) ∧
    cursorOf (processNewVideo fbBoot chBoot vBoot).1 chBoot.channel_id =
      some (some vBoot.video_id) ∧
    (processNewVideo fbBoot chBoot vBoot).1.videos = fbBoot.videos :=
  c3_bootstrap_gating_but_video_never_persisted fbBoot chBoot vBoot
    (by decide) (by decide) (by decide) (by decide)

/-- Channel record `UC1` as cached after a prior `get_all_channels`. -/
def docWarm : SubDoc :=
  { title := some ("Chan One"), last_video_id := some ("v1"),
    notify := some true }

/-- Registry state with a warm, valid cache consistent with the store. -/
def fbWarm : FirebaseState :=
  { subscriptions := [(uc1, docWarm)],
    channelsCache := some [docToChannel uc1 docWarm] }

/-- C5 (code bug): `update_channel_last_video` does not invalidate the
channels cache (unlike `save_subscription` and
`update_channel_notify_preference`), so a `get_all_channels` issued
immediately after a successful cursor advance still serves the cached
record with the old cursor: the write put `v2` in the store, yet the read
returns `v1`. -/
theorem c5_cursor_advance_leaves_stale_cache :
    (updateChannelLastVideo fbWarm uc1 ("v2")).2 = true ∧
    cursorOf (updateChannelLastVideo fbWarm uc1 ("v2")).1 uc1 =
      some (some ("v2")) ∧
    (getAllChannels (updateChannelLastVideo fbWarm uc1 ("v2")).1).1 =
      [docToChannel uc1 docWarm] ∧
    (docToChannel uc1 docWarm).last_video_id = "v1" ∧
    (getChannel (updateChannelLastVideo fbWarm uc1 ("v2")).1 uc1).map
        Channel.last_video_id = some ("v1") := by
  refine ⟨by decide, by decide, by decide, by decide, by decide⟩

/-- A nonempty buffered day: one stored full video and one filtered short. -/
def stPending : BotState :=
  { fb := fbUC2, redis := { videos := [vFull2], filtered := 1 } }

/-- C6 (code bug): the summary flush can never dispatch nor clear.
`_send_daily_summary` calls
`self._telegram_service.send_video_summary_notification(...)`, but
`TelegramService` defines no such method, so every run with a nonempty
drained state raises `AttributeError` inside the `try`, is caught, and
returns with zero completed dispatches and the buffer untouched (see
`sendDailySummary`); the concrete conjuncts evaluate the failing input. -/
theorem c6_summary_never_dispatches_nor_clears :
    (∀ st : BotState, sendDailySummary st = (st, 0)) ∧
    ¬ (getStoredVideos stPending.redis = [] ∧
        getFilteredCount stPending.redis = 0) ∧
    sendDailySummary stPending = (stPending, 0) := by
  refine ⟨?_, by decide, by decide⟩
  intro st
  simp only [sendDailySummary, ite_self]

def ucX : String := "UCX"

/-- Existing record behind `UCX`, with non-default local state. -/
def docEx : SubDoc :=
  { title := some ("Old Title"), thumbnail := some ("old-thumb"),
    last_video_id := some ("v9"), notify := some false,
    last_upload_at := some ("2024-01-01T00:00:00+00:00") }

/-- Cold-cache registry holding only `UCX`. -/
def fbEx : FirebaseState := { subscriptions := [(ucX, docEx)] }

/-- C8: one step of the channel-sync loop.  For a known channel the
upserted document carries the existing record's `last_video_id`, `notify`
and `last_upload_at` forward unchanged and takes only `title` (with the
`or channel_id` fallback) and `thumbnail` from the fetched subscription
tuple; for an unknown channel a fresh record is written with `notify=true`
and an empty cursor. -/
theorem c8_sync_preserves_local_state (fb : FirebaseState)
    (cid title thumb : String) :
    (∀ existing, channelExists fb cid = true →
        getChannel fb cid = some existing →
        findDoc (syncSubscriptionStep fb (cid, title, thumb)).1.subscriptions cid =
          some { title := some (pyOr title cid), thumbnail := some thumb,
                 last_video_id := some existing.last_video_id,
                 notify := some existing.notify,
                 last_upload_at := existing.last_upload_at }) ∧
    (channelExists fb cid = false →
        findDoc (syncSubscriptionStep fb (cid, title, thumb)).1.subscriptions cid =
          some { title := some (pyOr title cid), thumbnail := some thumb,
                 last_video_id := some (""), notify := some true,
                 last_upload_at := none }) := by
  constructor
  · intro existing hex hget
    simp [syncSubscriptionStep, hex, hget, saveSubscription, invalidateCache,
      findDoc_setDoc, Channel.toDoc]
  · intro hex
    simp [syncSubscriptionStep, hex, saveSubscription, invalidateCache,
      findDoc_setDoc, Channel.toDoc]

/-- C8 witness: syncing `(UCX, "New Title", "new-thumb")` against `fbEx`
keeps cursor `v9`, `notify=false` and the stored upload time, and a fresh
`UCZ` is created with default local state. -/
theorem c8_witness :
    findDoc (syncSubscriptionStep fbEx (ucX, "New Title", "new-thumb")).1.subscriptions
        ucX =
      some { title := some (pyOr ("New Title") ucX),
             thumbnail := some ("new-thumb"),
             last_video_id := some (docToChannel ucX docEx).last_video_id,
             notify := some (docToChannel ucX docEx).notify,
             last_upload_at := (docToChannel ucX docEx).last_upload_at } ∧
    findDoc (syncSubscriptionStep fbEx ("UCZ", "Z Title", "z-thumb")).1.subscriptions
        ("UCZ") =
      some { title := some (pyOr ("Z Title") ("UCZ")),
             thumbnail := some ("z-thumb"),
             last_video_id := some (""), notify := some true,
             last_upload_at := none } :=
  ⟨(c8_sync_preserves_local_state fbEx ucX ("New Title") ("new-thumb")).1
      (docToChannel ucX docEx) (by decide) (by decide),
   (c8_sync_preserves_local_state fbEx ("UCZ") ("Z Title") ("z-thumb")).2
      (by decide)⟩

/-- A feed entry carrying a link but yielding no video id. -/
def entryNoId : RssEntry := { link := "https://example.com/v" }

/-- C9 counterexample: the claim says the extracted link is the entry's own
link whenever that field is present; on an entry whose id fields are both
missing, the code instead produces an empty (`None`) link, because
`entry.get("link") or f"..." if vid else None` parses with the conditional
outermost. -/
theorem c9_link_counterexample :
    entryNoId.link ≠ "" ∧
    (fromRssEntry entryNoId ("UC1") ("Chan")).link = "" ∧
    (fromRssEntry entryNoId ("UC1") ("Chan")).link ≠ entryNoId.link := by
  refine ⟨by decide, by decide, by decide⟩

/-- C9 amended: when the entry yields a video id (feed-specific id with the
generic fallback), the link is the entry's own link, falling back to the
synthesized canonical watch URL; when no id is yielded the link is `None`
even if the entry has a link.  The published timestamp is the UTC
ISO rendering of the structured date field, `None` when that field is
absent or its components are rejected by the datetime constructor. -/
theorem c9_extraction_amended (e : RssEntry) (cid ct : String) :
    (pyOr e.yt_videoid e.entry_id = "" → (fromRssEntry e cid ct).link = "") ∧
    (pyOr e.yt_videoid e.entry_id ≠ "" →
      (fromRssEntry e cid ct).link =
        pyOr e.link (watchUrlBase ++ pyOr e.yt_videoid e.entry_id)) ∧
    (e.published_parsed = none → (fromRssEntry e cid ct).published_at = "") ∧
    (∀ t, e.published_parsed = some t →
      (fromRssEntry e cid ct).published_at = (datetimeUtcIso t).getD ("")) := by
  refine ⟨?_, ?_, ?_, ?_⟩
  · intro h
    simp [fromRssEntry, h]
  · intro h
    simp [fromRssEntry, h]
  · intro h
    simp [fromRssEntry, h]
  · intro t h
    simp [fromRssEntry, h]

/-- An entry with a feed-specific id, no link, and a valid published time. -/
def entryWithId : RssEntry :=
  { yt_videoid := "v5",
    published_parsed := some { year := 2024, month := 1, day := 2,
                               hour := 3, minute := 4, second := 5 } }

/-- C9 witness: on `entryWithId` the amended rule gives the synthesized
watch URL and the UTC rendering of the published time; on `entryNoId` it
gives the empty link. -/
theorem c9_witness :
    (fromRssEntry entryWithId ("UC1") ("Chan")).link =
      pyOr entryWithId.link
        (watchUrlBase ++ pyOr entryWithId.yt_videoid entryWithId.entry_id) ∧
    (fromRssEntry entryWithId ("UC1") ("Chan")).published_at =
      (datetimeUtcIso { year := 2024, month := 1, day := 2, hour := 3,
                        minute := 4, second := 5 }).getD ("") ∧
    (fromRssEntry entryNoId ("UC1") ("Chan")).link = "" :=
  ⟨(c9_extraction_amended entryWithId ("UC1") ("Chan")).2.1 (by decide),
   (c9_extraction_amended entryWithId ("UC1") ("Chan")).2.2.2 _ rfl,
   (c9_extraction_amended entryNoId ("UC1") ("Chan")).1 (by decide)⟩

/-- A legacy record: only a title, no `notify`, no `last_video_id`. -/
def docLegacy : SubDoc := { title := some ("Legacy") }

def ucL : String := "UCL"

/-- Cold-cache registry holding only the legacy record. -/
def fbLegacy : FirebaseState := { subscriptions := [(ucL, docLegacy)] }

/-- C10: a stored record lacking `notify` (resp. `last_video_id`) is read
back by both `get_channel` and `get_all_channels` as a channel with
`notify=true` and an empty cursor — legacy records behave as
notification-enabled, never-polled channels instead of failing. -/
theorem c10_reads_default_missing_fields (fb : FirebaseState) (cid : String)
    (d : SubDoc) (hcache : cacheValid fb = false)
    (hdoc : findDoc fb.subscriptions cid = some d)
    (hn : d.notify = none) (hl : d.last_video_id = none) :
    getChannel fb cid = some (docToChannel cid d) ∧
    (getChannel fb cid).map Channel.notify = some true ∧
    (getChannel fb cid).map Channel.last_video_id = some ("") ∧
    docToChannel cid d ∈ (getAllChannels fb).1 ∧
    (docToChannel cid d).notify = true ∧
    (docToChannel cid d).last_video_id = "" := by
  have hg : getChannel fb cid = some (docToChannel cid d) := by
    simp [getChannel, hcache, hdoc]
  have hdefault : (docToChannel cid d).notify = true ∧
      (docToChannel cid d).last_video_id = "" := by
    simp [docToChannel, hn, hl]
  refine ⟨hg, ?_, ?_, ?_, hdefault.1, hdefault.2⟩
  · rw [hg]
    simp [hdefault.1]
  · rw [hg]
    simp [hdefault.2]
  · have hmem := findDoc_mem fb.subscriptions cid d hdoc
    simp only [getAllChannels, hcache, Bool.false_eq_true, if_false]
    exact List.mem_map_of_mem (fun p => docToChannel p.1 p.2) hmem

/-- C10 witness: the legacy record `UCL`. -/
theorem c10_witness :
    getChannel fbLegacy ucL = some (docToChannel ucL docLegacy) ∧
    (getChannel fbLegacy ucL).map Channel.notify = some true ∧
    (getChannel fbLegacy ucL).map Channel.last_video_id = some ("") ∧
    docToChannel ucL docLegacy ∈ (getAllChannels fbLegacy).1 ∧
    (docToChannel ucL docLegacy).notify = true ∧
    (docToChannel ucL docLegacy).last_video_id = "" :=
  c10_reads_default_missing_fields fbLegacy ucL docLegacy
    (by decide) (by decide) rfl rfl
